import Mathlib

/-!
Verification development for the FSND CoffeeShop backend.

The repository source under scrutiny is `backend/src/api.py`: the Flask route
handlers for the drinks resource and the registered error handlers.  The
authorization module (`backend/src/auth/auth.py`) and the persistence layer
(`backend/src/database/models.py`) are imported by `api.py` but are not part
of the provided sources; where a claim depends on them they are modelled from
the specification, with each such definition marked `Modelled from the spec:`.

Machine integers do not overflow in any of the modelled code (HTTP statuses,
row ids and Unix timestamps are small), so they are embedded as `Nat`.
-/

/-- A JSON value, the codomain of Flask's `jsonify`.  Only the constructors
actually produced by the handlers are needed. -/
inductive JVal where
  | null : JVal
  | bool (b : Bool) : JVal
  | num (n : Nat) : JVal
  | str (s : String) : JVal
  | arr (elems : List JVal) : JVal
  | obj (fields : List (String × JVal)) : JVal

/-- Field lookup in a JSON object: `none` on a non-object or a missing key. -/
def JVal.lookupField : JVal → String → Option JVal
  | .obj fields, k => (fields.find? (fun p => p.1 == k)).map Prod.snd
  | _, _ => none

/-- Modelled from the spec: the payload carried by the typed authorization
error.  The spec's §6 "Outbound (failure)" interface says the error carries an
`error_code` and a `description` besides the HTTP status; `auth.py` (not under
`src/`) stores these two under the exception's `error` attribute, which is the
attribute `api.py`'s handler reads. -/
structure ErrorPayload where
  code : String
  description : String
deriving DecidableEq, Repr

/-- Modelled from the spec: the typed authorization error
`(http_status, error_code, description)` of §6, shaped as the `AuthError`
exception that `api.py` imports from the missing `auth.py`: the handler in
`api.py` reads exactly the attributes `error` (the code/description payload)
and `status_code` (the HTTP status). -/
structure AuthError where
  error : ErrorPayload
  status_code : Nat
deriving DecidableEq, Repr

/-- `jsonify` of the Python dict held in an `AuthError`'s `error` attribute. -/
def ErrorPayload.toJson (p : ErrorPayload) : JVal :=
  .obj [("code", .str p.code), ("description", .str p.description)]

/-- The `@app.errorhandler(AuthError)` handler `auth_error` of `api.py`:
returns `jsonify({"success": False, "error": error.status_code,
"message": error.error})` with HTTP status `error.status_code`. -/
def auth_error (error : AuthError) : JVal × Nat :=
  (.obj [ ("success", .bool false)
        , ("error", .num error.status_code)
        , ("message", error.error.toJson) ],
   error.status_code)

/-! ## The token verifier, modelled from the spec (§4.1)

`auth.py` is not under `src/`; the verifier below follows the spec's six-step
pipeline word for word.  Cryptographic material is abstracted: a token's
signature is valid exactly when it matches the resolved key's verification
material under the configured algorithm, which the model renders as equality
of the signature field with the key material together with equality of the
token's algorithm with the configured one. -/

/-- Modelled from the spec: the recognized configuration options of §6:
`{domain, audience, algorithm, permission_check_enabled}`. -/
structure AuthConfig where
  domain : String
  audience : String
  algorithm : String
  permission_check_enabled : Bool
deriving DecidableEq, Repr

/-- Modelled from the spec: the expected issuer, derived from the configured
issuer domain (the issuer's key-source host). -/
def AuthConfig.issuer (c : AuthConfig) : String :=
  "https://" ++ c.domain ++ "/"

/-- Modelled from the spec: decoded token claims (§3 "Token Claims"): at
minimum an audience, issuer, expiry and a permissions claim, plus an open map
for unrecognized/extension claims (§9). `permissions = none` models a token
whose payload lacks the permissions field altogether. -/
structure TokenClaims where
  iss : String
  aud : String
  exp : Nat
  permissions : Option (List String)
  extra : List (String × String)
deriving DecidableEq, Repr

/-- Modelled from the spec: the data recoverable from a well-formed token
string: the header's key identifier and declared algorithm, the signature,
and the payload claims. -/
structure TokenData where
  kid : String
  alg : String
  sig : String
  claims : TokenClaims
deriving DecidableEq, Repr

/-- Modelled from the spec: the verifier's environment: the token codec (a
partial decoding function, `none` on an unparseable token string), the
fetched Signing Key Set (§3) as a `kid ↦ key material` association list, and
the verification time used for the expiry check. -/
structure AuthEnv where
  decodeToken : String → Option TokenData
  keys : List (String × String)
  now : Nat

/-- Splitting a character list at every occurrence of the separator
character; empty runs between separators are kept, as in Python's
`str.split(' ')`. -/
def splitOnChar (c : Char) : List Char → List (List Char)
  | [] => [[]]
  | x :: xs =>
    match splitOnChar c xs with
    | [] => if x = c then [[], []] else [[x]]
    | y :: ys => if x = c then [] :: y :: ys else (x :: y) :: ys

/-- The raw header split at every space character, Python's
`header.split(' ')`: the form `Bearer <token>` yields exactly the two parts
`["Bearer", token]`; a missing separator, an extra space or a trailing
space yield a different shape. -/
def headerParts (s : String) : List String :=
  (splitOnChar ' ' s.toList).map (fun cs => String.mk cs)

/-- Modelled from the spec: step 1 of §4.1 — extract the token from the raw
`Authorization` header.  The header must be present and match the exact
two-part form `Bearer <token>`: case-sensitive scheme, single space
separator, non-empty token part; each failure is a distinct
`invalid_header`/401 error. -/
def get_token_auth_header (raw : Option String) : Except AuthError String :=
  match raw with
  | none =>
      .error ⟨⟨"invalid_header", "Authorization header is expected."⟩, 401⟩
  | some s =>
      match headerParts s with
      | [scheme, tok] =>
          if scheme = "Bearer" then
            if tok = "" then
              .error ⟨⟨"invalid_header", "Token not found."⟩, 401⟩
            else .ok tok
          else
            .error ⟨⟨"invalid_header",
                     "Authorization header must start with Bearer."⟩, 401⟩
      | _ =>
          .error ⟨⟨"invalid_header",
                   "Authorization header must be bearer token."⟩, 401⟩

/-- Modelled from the spec: steps 2–4 of §4.1 — decode the token header for
its key identifier (failure: `invalid_header`/401), resolve the signing key
(failure: `invalid_header`/401), verify the signature under the configured
algorithm (mismatch is a hard failure, `invalid_header`/401 per the §7
table), then validate the standard claims in the spec's order: expiry
(distinct `token_expired`/401), then audience and issuer
(`invalid_claims`/401). -/
def verify_decode (cfg : AuthConfig) (env : AuthEnv) (tok : String) :
    Except AuthError TokenClaims :=
  match env.decodeToken tok with
  | none =>
      .error ⟨⟨"invalid_header", "Unable to parse authentication token."⟩, 401⟩
  | some td =>
      match env.keys.lookup td.kid with
      | none =>
          .error ⟨⟨"invalid_header", "Unable to find the appropriate key."⟩, 401⟩
      | some key =>
          if td.sig = key ∧ td.alg = cfg.algorithm then
            if td.claims.exp < env.now then
              .error ⟨⟨"token_expired", "Token expired."⟩, 401⟩
            else if td.claims.aud = cfg.audience ∧ td.claims.iss = cfg.issuer then
              .ok td.claims
            else
              .error ⟨⟨"invalid_claims",
                       "Incorrect claims. Please, check the audience and issuer."⟩,
                      401⟩
          else
            .error ⟨⟨"invalid_header", "Unable to verify token signature."⟩, 401⟩

/-- Modelled from the spec: step 5 of §4.1 — the permission-scope check.
Skipped when disabled by configuration; otherwise the verified claims must
contain a permissions collection (absence: `invalid_claims`/400) and the
required permission must be an exact string member of it (absence:
`unauthorized`/403). -/
def check_permissions (cfg : AuthConfig) (required : String)
    (claims : TokenClaims) : Except AuthError TokenClaims :=
  if cfg.permission_check_enabled then
    match claims.permissions with
    | none =>
        .error ⟨⟨"invalid_claims", "Permissions not included in JWT."⟩, 400⟩
    | some ps =>
        if required ∈ ps then .ok claims
        else .error ⟨⟨"unauthorized", "Permission not found."⟩, 403⟩
  else .ok claims

/-- Modelled from the spec: the public contract of §4.1,
`verify(required_permission, raw_header) -> Claims | Error`, chaining the six
hard gates; each failure returns immediately. -/
def verify (cfg : AuthConfig) (env : AuthEnv) (required : String)
    (raw : Option String) : Except AuthError TokenClaims :=
  match get_token_auth_header raw with
  | .error e => .error e
  | .ok tok =>
      match verify_decode cfg env tok with
      | .error e => .error e
      | .ok claims => check_permissions cfg required claims

/-- The raw header matches the exact two-part form `Bearer <token>`:
case-sensitive scheme, single space separator, non-empty token part. -/
def isBearerForm (s : String) : Bool :=
  match headerParts s with
  | [scheme, tok] => scheme == "Bearer" && tok != ""
  | _ => false

/-- The verification result is a typed failure with the given error code and
HTTP status. -/
def failsWith (r : Except AuthError TokenClaims) (code : String)
    (status : Nat) : Bool :=
  match r with
  | .error e => e.error.code == code && e.status_code == status
  | .ok _ => false

/-! ## The drink route handlers of `api.py`

`database/models.py` is not under `src/`; the spec (§1) describes the
persistence layer as a direct pass-through to a relational store with no
business rules, so the store is modelled as a list of rows and the `Drink`
model operations as the evident pass-through operations, each marked
`Modelled from the spec:`.  An exception raised by the store inside a
handler's `try` block is modelled by an `Option String` failure-injection
argument carrying the exception's internal detail. -/

/-- The `Drink` model object.  A row fetched from the store carries its
assigned id; a freshly constructed `Drink(title=…, recipe=…)` has no id
until inserted, hence `id : Option Nat`.  `title` is the value passed for
the `title` column (Python `None` when the request body lacked it) and
`recipe` the JSON text stored in the `recipe` column. -/
structure Drink where
  id : Option Nat
  title : Option String
  recipe : String
deriving DecidableEq, Repr

/-- The drinks table: the rows currently persisted. -/
abbrev Store := List Drink

/-- The parsed JSON request body as read by the handlers:
`form.get('title')` and `form.get('recipe')`, each `None` when absent.  The
recipe payload itself is abstracted as an opaque string. -/
structure ReqBody where
  title : Option String
  recipe : Option String
deriving DecidableEq, Repr

/-- `json.dumps` applied to the (abstracted) recipe value: Python `None`
serializes to the JSON text `null`; an opaque present payload is kept as is. -/
def json_dumps (o : Option String) : String :=
  match o with
  | none => "null"
  | some s => s

/-- JSON rendering of an optional id (`None` serializes to `null`). -/
def jsonOfId (i : Option Nat) : JVal :=
  match i with
  | none => .null
  | some n => .num n

/-- JSON rendering of an optional title. -/
def jsonOfTitle (t : Option String) : JVal :=
  match t with
  | none => .null
  | some s => .str s

/-- Modelled from the spec: `Drink.short()`, the short data representation
(serialization of domain objects is out of the spec's scope; the projection
of the recipe to colour/parts is orthogonal to every claim and the recipe
text is kept opaque). -/
def Drink.short (d : Drink) : JVal :=
  .obj [("id", jsonOfId d.id), ("title", jsonOfTitle d.title),
        ("recipe", .str d.recipe)]

/-- Modelled from the spec: `Drink.long()`, the long data representation
with the full recipe. -/
def Drink.long (d : Drink) : JVal :=
  .obj [("id", jsonOfId d.id), ("title", jsonOfTitle d.title),
        ("recipe", .str d.recipe)]

/-- The next autoincrement id of the drinks table. -/
def nextId (s : Store) : Nat :=
  (s.map (fun d => d.id.getD 0)).foldl max 0 + 1

/-- Modelled from the spec: `Drink.insert()` — adds the new object to the
session and commits, persisting it under a fresh id. -/
def Drink.insert (s : Store) (d : Drink) : Store :=
  s ++ [{ d with id := some (nextId s) }]

/-- Modelled from the spec: `Drink.update()` — commits the session.  Changes
to an object fetched from the store (one carrying its row id) are persisted
to that row; an object that was never inserted is transient, not attached to
the session, so the commit leaves the store unchanged. -/
def Drink.update (s : Store) (d : Drink) : Store :=
  match d.id with
  | some i =>
      s.map (fun r => if r.id == some i then
               { r with title := d.title, recipe := d.recipe } else r)
  | none => s

/-- Modelled from the spec: `Drink.delete()` — removes the object's row from
the store and commits. -/
def Drink.delete (s : Store) (d : Drink) : Store :=
  s.filter (fun r => r.id != d.id)

/-- The `@app.errorhandler(404)` handler `not_found` of `api.py`: a fixed
envelope, independent of the exception that triggered the abort. -/
def not_found (_error : String) : JVal × Nat :=
  (.obj [ ("success", .bool false)
        , ("error", .num 404)
        , ("message", .str "resource not found") ], 404)

/-- The `@app.errorhandler(422)` handler `unprocessable` of `api.py`: a fixed
envelope, independent of the exception that triggered the abort. -/
def unprocessable (_error : String) : JVal × Nat :=
  (.obj [ ("success", .bool false)
        , ("error", .num 422)
        , ("message", .str "unprocessable") ], 422)

/-- `GET /drinks` (`get_drinks` in `api.py`): queries all drinks and returns
them in the short representation; any exception in the `try` block
(`except BaseException`) aborts with 404, which Flask routes to `not_found`. -/
def get_drinks (exc : Option String) (s : Store) : JVal × Nat :=
  match exc with
  | some e => not_found e
  | none =>
      (.obj [ ("success", .bool true)
            , ("drinks", .arr (s.map Drink.short)) ], 200)

/-- `GET /drinks-detail` (`drinks_detail` in `api.py`): queries all drinks
and returns them in the long representation; any exception aborts with 404. -/
def drinks_detail (exc : Option String) (s : Store) : JVal × Nat :=
  match exc with
  | some e => not_found e
  | none =>
      (.obj [ ("success", .bool true)
            , ("drinks", .arr (s.map Drink.long)) ], 200)

/-- `POST /drinks` (`create_drink` in `api.py`): builds a new `Drink` from
the body and inserts it; any exception in the `try` block aborts with 422. -/
def create_drink (exc : Option String) (s : Store) (body : ReqBody) :
    Store × (JVal × Nat) :=
  match exc with
  | some e => (s, unprocessable e)
  | none =>
      let drink : Drink :=
        { id := none, title := body.title, recipe := json_dumps body.recipe }
      let s2 := Drink.insert s drink
      (s2, (.obj [ ("success", .bool true)
                 , ("drinks", Drink.long { drink with id := some (nextId s) }) ],
            200))

/-- `PATCH /drinks/<id>` (`update_drink` in `api.py`): looks the row up with
`one_or_none`, then rebinds the variable to a brand-new
`Drink(title=…, recipe=…)` — the fetched row is discarded — calls `update()`
on the fresh object and answers with the fresh object's long representation;
any exception in the `try` block aborts with 422.  The first binding below
mirrors the source's `drink = Drink.query.filter(...).one_or_none()`, whose
result the source immediately shadows and never reads. -/
def update_drink (exc : Option String) (s : Store) (id : Nat)
    (body : ReqBody) : Store × (JVal × Nat) :=
  match exc with
  | some e => (s, unprocessable e)
  | none =>
      let _drink := s.find? (fun d => d.id == some id)
      let drink : Drink :=
        { id := none, title := body.title, recipe := json_dumps body.recipe }
      let s2 := Drink.update s drink
      (s2, (.obj [ ("success", .bool true)
                 , ("drinks", .arr [Drink.long drink]) ], 200))

/-- `DELETE /drinks/<id>` (`delete_drink` in `api.py`): looks the row up with
`one_or_none`; when no row matches, the subsequent `drink.delete()` is an
attribute access on `None` and raises, which the blanket
`except BaseException` turns into `abort(404)`; otherwise the row is deleted
and `{"success": True, "delete": id}` returned.  Any other exception in the
`try` block also aborts with 404. -/
def delete_drink (exc : Option String) (s : Store) (id : Nat) :
    Store × (JVal × Nat) :=
  match exc with
  | some e => (s, not_found e)
  | none =>
      match s.find? (fun d => d.id == some id) with
      | none => (s, not_found "AttributeError: NoneType has no attribute delete")
      | some drink =>
          (Drink.delete s drink,
           (.obj [("success", .bool true), ("delete", .num id)], 200))

/-! ## Theorems -/

/-- C2 counterexample: at the concrete authorization error
`(401, "invalid_header", "Authorization header is expected.")`, the
`"message"` field of the body produced by `auth_error` is NOT the error's
description string — the handler serializes `error.error`, the whole
code/description payload object. -/
theorem auth_error_message_not_description :
    ¬ (JVal.lookupField
        (auth_error ⟨⟨"invalid_header", "Authorization header is expected."⟩,
                     401⟩).1 "message"
       = some (JVal.str "Authorization header is expected.")) := by
  intro h
  simp [auth_error, ErrorPayload.toJson, JVal.lookupField] at h

/-- C2 (amended): for every typed authorization error, `auth_error` produces
a JSON body whose `success` field is `false`, whose `error` field is the
error's HTTP status, and whose `message` field is the error's whole
code/description payload object (not the description string alone), and the
HTTP response status equals that same status. -/
theorem auth_error_envelope (e : AuthError) :
    (auth_error e).2 = e.status_code ∧
    JVal.lookupField (auth_error e).1 "success" = some (.bool false) ∧
    JVal.lookupField (auth_error e).1 "error" = some (.num e.status_code) ∧
    JVal.lookupField (auth_error e).1 "message" = some e.error.toJson :=
  ⟨rfl, rfl, rfl, rfl⟩

/-- C2 witness: the amended envelope shape at a concrete error. -/
theorem auth_error_envelope_witness :
    (auth_error ⟨⟨"unauthorized", "Permission not found."⟩, 403⟩).2 = 403 ∧
    JVal.lookupField
      (auth_error ⟨⟨"unauthorized", "Permission not found."⟩, 403⟩).1 "success"
      = some (.bool false) ∧
    JVal.lookupField
      (auth_error ⟨⟨"unauthorized", "Permission not found."⟩, 403⟩).1 "error"
      = some (.num 403) ∧
    JVal.lookupField
      (auth_error ⟨⟨"unauthorized", "Permission not found."⟩, 403⟩).1 "message"
      = some (ErrorPayload.toJson ⟨"unauthorized", "Permission not found."⟩) :=
  auth_error_envelope ⟨⟨"unauthorized", "Permission not found."⟩, 403⟩

/-- C8: a persistence failure raised inside any drink handler's `try` block
yields the generic 404 or 422 envelope with its fixed message, identical for
every exception detail `d` — no internal detail reaches the response. -/
theorem persistence_failure_generic_envelope (d : String) (s : Store)
    (i : Nat) (b : ReqBody) :
    get_drinks (some d) s
      = (.obj [ ("success", .bool false), ("error", .num 404)
              , ("message", .str "resource not found") ], 404) ∧
    drinks_detail (some d) s
      = (.obj [ ("success", .bool false), ("error", .num 404)
              , ("message", .str "resource not found") ], 404) ∧
    (create_drink (some d) s b).2
      = (.obj [ ("success", .bool false), ("error", .num 422)
              , ("message", .str "unprocessable") ], 422) ∧
    (update_drink (some d) s i b).2
      = (.obj [ ("success", .bool false), ("error", .num 422)
              , ("message", .str "unprocessable") ], 422) ∧
    (delete_drink (some d) s i).2
      = (.obj [ ("success", .bool false), ("error", .num 404)
              , ("message", .str "resource not found") ], 404) :=
  ⟨rfl, rfl, rfl, rfl, rfl⟩

/-- C9: the PATCH handler leaves the store untouched — the row looked up by
`id` is discarded and `update()` is called on a fresh, transient `Drink`
built from the request body — and the response is built from that fresh
object (its fields come from the body alone, its id is unset), not from the
stored row. -/
theorem update_drink_discards_row (s : Store) (i : Nat) (b : ReqBody) :
    (update_drink none s i b).1 = s ∧
    (update_drink none s i b).2
      = (.obj [ ("success", .bool true)
              , ("drinks",
                 .arr [Drink.long ⟨none, b.title, json_dumps b.recipe⟩]) ],
         200) :=
  ⟨rfl, rfl⟩

/-- C10: a DELETE for an id with no matching row answers with the generic
404 envelope and leaves the store unchanged: the lookup yields `None`, the
attribute access `drink.delete()` raises, and the blanket handler aborts
with 404 before any row is deleted. -/
theorem delete_drink_missing_id (s : Store) (i : Nat)
    (h : ∀ d ∈ s, d.id ≠ some i) :
    delete_drink none s i
      = (s, (.obj [ ("success", .bool false), ("error", .num 404)
                  , ("message", .str "resource not found") ], 404)) := by
  have hfind : s.find? (fun d => d.id == some i) = none :=
    List.find?_eq_none.mpr (fun d hd => by simpa using h d hd)
  unfold delete_drink
  rw [hfind]
  rfl

/-- C10 witness: deleting id 1 from a store holding only id 2. -/
theorem delete_drink_missing_id_witness :
    delete_drink none [⟨some 2, some "water", "[]"⟩] 1
      = ([⟨some 2, some "water", "[]"⟩],
         (.obj [ ("success", .bool false), ("error", .num 404)
               , ("message", .str "resource not found") ], 404)) :=
  delete_drink_missing_id [⟨some 2, some "water", "[]"⟩] 1 (by decide)

/-- A concrete configuration used by the witnesses: permission checking on. -/
def cfgW : AuthConfig := ⟨"dev-coffee.auth0.com", "my-api", "RS256", true⟩

/-- A concrete decoded token used by the witnesses: key id `k1`, the
configured algorithm, a signature matching key material `KEY1`, audience and
issuer matching `cfgW`, expiry 1000, one permission. -/
def tdW : TokenData :=
  ⟨"k1", "RS256", "KEY1",
   ⟨"https://dev-coffee.auth0.com/", "my-api", 1000,
    some ["get:drinks-detail"], []⟩⟩

/-- A token like `tdW` but whose payload lacks the permissions field. -/
def tdNoPermW : TokenData :=
  ⟨"k2", "RS256", "KEY2",
   ⟨"https://dev-coffee.auth0.com/", "my-api", 1000, none, []⟩⟩

/-- A concrete verifier environment used by the witnesses: decodes the token
strings `tokA` and `tokB`, holds both signing keys, clock at 500. -/
def envW : AuthEnv :=
  ⟨fun t => if t = "tokA" then some tdW
            else if t = "tokB" then some tdNoPermW else none,
   [("k1", "KEY1"), ("k2", "KEY2")], 500⟩

/-- C5: whenever the raw `Authorization` header is absent or fails the exact
two-part form `Bearer <token>` (case-sensitive scheme, single space,
non-empty token part), `verify` fails with `invalid_header`/401 — for every
environment, i.e. regardless of whether the token part would be valid. -/
theorem verify_malformed_header (cfg : AuthConfig) (env : AuthEnv)
    (required : String) (raw : Option String)
    (h : ∀ s, raw = some s → isBearerForm s = false) :
    failsWith (verify cfg env required raw) "invalid_header" 401 = true := by
  cases raw with
  | none => rfl
  | some s =>
    have hs := h s rfl
    unfold isBearerForm at hs
    cases hp : headerParts s with
    | nil => simp [verify, get_token_auth_header, hp, failsWith]
    | cons a t =>
      cases t with
      | nil => simp [verify, get_token_auth_header, hp, failsWith]
      | cons b t2 =>
        cases t2 with
        | cons c t3 => simp [verify, get_token_auth_header, hp, failsWith]
        | nil =>
          rw [hp] at hs
          by_cases ha : a = "Bearer"
          · subst ha
            have hb : b = "" := by simpa using hs
            subst hb
            simp [verify, get_token_auth_header, hp, failsWith]
          · simp [verify, get_token_auth_header, hp, failsWith, ha]

/-- C5 witness: the spec's scenario, a header with the wrong scheme. -/
theorem verify_malformed_header_witness :
    failsWith (verify cfgW envW "get:drinks-detail" (some "Token abc.def.ghi"))
      "invalid_header" 401 = true :=
  verify_malformed_header cfgW envW "get:drinks-detail"
    (some "Token abc.def.ghi") (fun s hs => by cases hs; decide)

/-- C6: a token whose expiry timestamp is in the past at verification time
fails with the distinct `token_expired`/401 error, even though the header is
well-formed, the signature verifies under the resolved key and the
configured algorithm, and the required permission is present in the token's
permissions collection. -/
theorem verify_expired (cfg : AuthConfig) (env : AuthEnv) (required : String)
    (s tok : String) (td : TokenData) (key : String)
    (hsplit : headerParts s = ["Bearer", tok]) (htok : tok ≠ "")
    (hdec : env.decodeToken tok = some td)
    (hkey : env.keys.lookup td.kid = some key)
    (hsig : td.sig = key) (halg : td.alg = cfg.algorithm)
    (hexp : td.claims.exp < env.now)
    (_hperm : ∃ ps, td.claims.permissions = some ps ∧ required ∈ ps) :
    verify cfg env required (some s)
      = .error ⟨⟨"token_expired", "Token expired."⟩, 401⟩ := by
  simp [verify, get_token_auth_header, verify_decode, hsplit, htok, hdec,
        hkey, hsig, halg, hexp]

/-- C6 witness: the environment's clock moved past `tdW`'s expiry. -/
theorem verify_expired_witness :
    verify cfgW ⟨envW.decodeToken, envW.keys, 2000⟩ "get:drinks-detail"
      (some "Bearer tokA")
      = .error ⟨⟨"token_expired", "Token expired."⟩, 401⟩ :=
  verify_expired cfgW ⟨envW.decodeToken, envW.keys, 2000⟩ "get:drinks-detail"
    "Bearer tokA" "tokA" tdW "KEY1" (by decide) (by decide) rfl rfl rfl rfl
    (by decide) ⟨["get:drinks-detail"], rfl, by decide⟩

/-- C3: a well-formed header carrying a token that decodes, whose signing
key resolves, whose signature verifies under the configured algorithm, that
is unexpired with matching audience and issuer, and whose permissions
collection contains the required permission, verifies successfully and the
returned claims are the token's decoded payload, unchanged. -/
theorem verify_success_returns_claims (cfg : AuthConfig) (env : AuthEnv)
    (required : String) (s tok : String) (td : TokenData) (key : String)
    (ps : List String)
    (hsplit : headerParts s = ["Bearer", tok]) (htok : tok ≠ "")
    (hdec : env.decodeToken tok = some td)
    (hkey : env.keys.lookup td.kid = some key)
    (hsig : td.sig = key) (halg : td.alg = cfg.algorithm)
    (hexp : ¬ td.claims.exp < env.now)
    (haud : td.claims.aud = cfg.audience) (hiss : td.claims.iss = cfg.issuer)
    (hperm : td.claims.permissions = some ps) (hmem : required ∈ ps) :
    verify cfg env required (some s) = .ok td.claims := by
  simp [verify, get_token_auth_header, verify_decode, check_permissions,
        hsplit, htok, hdec, hkey, hsig, halg, hexp, haud, hiss, hperm, hmem]

/-- C3 witness: the spec's success scenario — `tdW` carries
`get:drinks-detail` and that permission is required. -/
theorem verify_success_returns_claims_witness :
    verify cfgW envW "get:drinks-detail" (some "Bearer tokA")
      = .ok tdW.claims :=
  verify_success_returns_claims cfgW envW "get:drinks-detail" "Bearer tokA"
    "tokA" tdW "KEY1" ["get:drinks-detail"] (by decide) (by decide) rfl rfl
    rfl rfl (by decide) rfl rfl rfl (by decide)

/-- C4: with permission checking enabled, a token passing every earlier gate
but whose verified claims lack the permissions collection fails with
`invalid_claims`/400, and a token passing every earlier gate whose
permissions collection does not contain the required permission as an exact
member fails with `unauthorized`/403.  The two situations are exhibited by
two tokens against the same configuration and environment. -/
theorem verify_permission_gate (cfg : AuthConfig) (env : AuthEnv)
    (required : String)
    (s1 tok1 : String) (td1 : TokenData) (key1 : String)
    (s2 tok2 : String) (td2 : TokenData) (key2 : String) (ps : List String)
    (hen : cfg.permission_check_enabled = true)
    (hsplit1 : headerParts s1 = ["Bearer", tok1]) (htok1 : tok1 ≠ "")
    (hdec1 : env.decodeToken tok1 = some td1)
    (hkey1 : env.keys.lookup td1.kid = some key1)
    (hsig1 : td1.sig = key1) (halg1 : td1.alg = cfg.algorithm)
    (hexp1 : ¬ td1.claims.exp < env.now)
    (haud1 : td1.claims.aud = cfg.audience)
    (hiss1 : td1.claims.iss = cfg.issuer)
    (hnone : td1.claims.permissions = none)
    (hsplit2 : headerParts s2 = ["Bearer", tok2]) (htok2 : tok2 ≠ "")
    (hdec2 : env.decodeToken tok2 = some td2)
    (hkey2 : env.keys.lookup td2.kid = some key2)
    (hsig2 : td2.sig = key2) (halg2 : td2.alg = cfg.algorithm)
    (hexp2 : ¬ td2.claims.exp < env.now)
    (haud2 : td2.claims.aud = cfg.audience)
    (hiss2 : td2.claims.iss = cfg.issuer)
    (hsome : td2.claims.permissions = some ps) (hmem : required ∉ ps) :
    verify cfg env required (some s1)
      = .error ⟨⟨"invalid_claims", "Permissions not included in JWT."⟩, 400⟩ ∧
    verify cfg env required (some s2)
      = .error ⟨⟨"unauthorized", "Permission not found."⟩, 403⟩ := by
  constructor
  · simp [verify, get_token_auth_header, verify_decode, check_permissions,
          hen, hsplit1, htok1, hdec1, hkey1, hsig1, halg1, hexp1, haud1,
          hiss1, hnone]
  · simp [verify, get_token_auth_header, verify_decode, check_permissions,
          hen, hsplit2, htok2, hdec2, hkey2, hsig2, halg2, hexp2, haud2,
          hiss2, hsome, hmem]

/-- C4 witness: `tokB` decodes to a valid token with no permissions field
(400), and `tokA` carries only `get:drinks-detail` while `post:drinks` is
required (403) — the spec's second scenario. -/
theorem verify_permission_gate_witness :
    verify cfgW envW "post:drinks" (some "Bearer tokB")
      = .error ⟨⟨"invalid_claims", "Permissions not included in JWT."⟩, 400⟩ ∧
    verify cfgW envW "post:drinks" (some "Bearer tokA")
      = .error ⟨⟨"unauthorized", "Permission not found."⟩, 403⟩ :=
  verify_permission_gate cfgW envW "post:drinks" "Bearer tokB" "tokB"
    tdNoPermW "KEY2" "Bearer tokA" "tokA" tdW "KEY1" ["get:drinks-detail"]
    rfl (by decide) (by decide) rfl rfl rfl rfl (by decide) rfl rfl rfl
    (by decide) (by decide) rfl rfl rfl rfl (by decide) rfl rfl rfl
    (by decide)

/-- Inversion of step 1: a successfully extracted token came from a present
header of the exact two-part `Bearer <token>` form with a non-empty token. -/
theorem get_token_auth_header_ok_inv (raw : Option String) (tok : String)
    (h : get_token_auth_header raw = .ok tok) :
    ∃ s, raw = some s ∧ headerParts s = ["Bearer", tok] ∧ tok ≠ "" := by
  cases raw with
  | none => simp [get_token_auth_header] at h
  | some s =>
    refine ⟨s, rfl, ?_⟩
    cases hp : headerParts s with
    | nil => simp [get_token_auth_header, hp] at h
    | cons a t =>
      cases t with
      | nil => simp [get_token_auth_header, hp] at h
      | cons b t2 =>
        cases t2 with
        | cons c t3 => simp [get_token_auth_header, hp] at h
        | nil =>
          by_cases ha : a = "Bearer"
          · by_cases hb : b = ""
            · simp [get_token_auth_header, hp, ha, hb] at h
            · simp [get_token_auth_header, hp, ha, hb] at h
              subst ha
              subst h
              exact ⟨rfl, hb⟩
          · simp [get_token_auth_header, hp, ha] at h

/-- Inversion of steps 2–4: a token accepted by `verify_decode` decoded, its
key resolved, its signature verified under the configured algorithm, it was
unexpired with matching audience and issuer, and the result is its decoded
claims. -/
theorem verify_decode_ok_inv (cfg : AuthConfig) (env : AuthEnv)
    (tok : String) (claims : TokenClaims)
    (h : verify_decode cfg env tok = .ok claims) :
    ∃ td key, env.decodeToken tok = some td ∧
      env.keys.lookup td.kid = some key ∧
      td.sig = key ∧ td.alg = cfg.algorithm ∧
      ¬ td.claims.exp < env.now ∧
      td.claims.aud = cfg.audience ∧ td.claims.iss = cfg.issuer ∧
      claims = td.claims := by
  cases hdec : env.decodeToken tok with
  | none => simp [verify_decode, hdec] at h
  | some td =>
    cases hkey : env.keys.lookup td.kid with
    | none => simp [verify_decode, hdec, hkey] at h
    | some key =>
      by_cases hsig : td.sig = key ∧ td.alg = cfg.algorithm
      · by_cases hexp : td.claims.exp < env.now
        · simp [verify_decode, hdec, hkey, hsig.1, hsig.2, hexp] at h
        · by_cases hci : td.claims.aud = cfg.audience ∧
              td.claims.iss = cfg.issuer
          · have hc : td.claims = claims := by
              simpa [verify_decode, hdec, hkey, hsig.1, hsig.2, hexp,
                     hci.1, hci.2] using h
            exact ⟨td, key, rfl, hkey, hsig.1, hsig.2, hexp, hci.1, hci.2,
                   hc.symm⟩
          · simp [verify_decode, hdec, hkey, hsig.1, hsig.2, hexp, hci] at h
      · simp [verify_decode, hdec, hkey, hsig] at h

/-- Inversion of step 5: claims accepted by the permission check are passed
through unchanged, and when checking is enabled the permissions collection
is present and contains the required permission. -/
theorem check_permissions_ok_inv (cfg : AuthConfig) (required : String)
    (claims claims' : TokenClaims)
    (h : check_permissions cfg required claims = .ok claims') :
    claims' = claims ∧
    (cfg.permission_check_enabled = true →
      ∃ ps, claims.permissions = some ps ∧ required ∈ ps) := by
  by_cases hen : cfg.permission_check_enabled = true
  · cases hp : claims.permissions with
    | none => simp [check_permissions, hen, hp] at h
    | some ps =>
      by_cases hmem : required ∈ ps
      · have hc : claims = claims' := by
          simpa [check_permissions, hen, hp, hmem] using h
        exact ⟨hc.symm, fun _ => ⟨ps, rfl, hmem⟩⟩
      · simp [check_permissions, hen, hp, hmem] at h
  · have hc : claims = claims' := by
      simpa [check_permissions, hen] using h
    exact ⟨hc.symm, fun he => absurd he hen⟩

/-- C1: `verify` authorizes only inputs passing every gate: whenever it
returns claims, the header was present in exact `Bearer <token>` form, the
token decoded, its signing key resolved, its signature verified under the
configured algorithm, it was unexpired, audience and issuer matched, and —
when permission checking is enabled — the permissions collection was present
and contained the required permission; the returned claims are the token's.
Contrapositively, no input failing any one of these checks is authorized. -/
theorem verify_ok_all_checks (cfg : AuthConfig) (env : AuthEnv)
    (required : String) (raw : Option String) (c : TokenClaims)
    (h : verify cfg env required raw = .ok c) :
    ∃ s tok td key,
      raw = some s ∧ headerParts s = ["Bearer", tok] ∧ tok ≠ "" ∧
      env.decodeToken tok = some td ∧
      env.keys.lookup td.kid = some key ∧
      td.sig = key ∧ td.alg = cfg.algorithm ∧
      ¬ td.claims.exp < env.now ∧
      td.claims.aud = cfg.audience ∧ td.claims.iss = cfg.issuer ∧
      (cfg.permission_check_enabled = true →
        ∃ ps, td.claims.permissions = some ps ∧ required ∈ ps) ∧
      c = td.claims := by
  cases hg : get_token_auth_header raw with
  | error e => simp [verify, hg] at h
  | ok tok =>
    cases hv : verify_decode cfg env tok with
    | error e => simp [verify, hg, hv] at h
    | ok claims =>
      have h2 : check_permissions cfg required claims = .ok c := by
        simpa [verify, hg, hv] using h
      obtain ⟨s, hraw, hsp, htok⟩ := get_token_auth_header_ok_inv raw tok hg
      obtain ⟨td, key, hdec, hkey, hsig, halg, hexp, haud, hiss, hcl⟩ :=
        verify_decode_ok_inv cfg env tok claims hv
      obtain ⟨hceq, hperm⟩ := check_permissions_ok_inv cfg required claims c h2
      subst hcl
      exact ⟨s, tok, td, key, hraw, hsp, htok, hdec, hkey, hsig, halg, hexp,
             haud, hiss, hperm, hceq⟩

/-- C1 witness: the all-checks decomposition at the concrete success run. -/
theorem verify_ok_all_checks_witness :
    ∃ s tok td key,
      (some "Bearer tokA" : Option String) = some s ∧
      headerParts s = ["Bearer", tok] ∧ tok ≠ "" ∧
      envW.decodeToken tok = some td ∧
      envW.keys.lookup td.kid = some key ∧
      td.sig = key ∧ td.alg = cfgW.algorithm ∧
      ¬ td.claims.exp < envW.now ∧
      td.claims.aud = cfgW.audience ∧ td.claims.iss = cfgW.issuer ∧
      (cfgW.permission_check_enabled = true →
        ∃ ps, td.claims.permissions = some ps ∧ "get:drinks-detail" ∈ ps) ∧
      tdW.claims = td.claims :=
  verify_ok_all_checks cfgW envW "get:drinks-detail" (some "Bearer tokA")
    tdW.claims rfl

/-- C7: `verify` is deterministic — as a pure function of the configuration,
the environment (token codec, fixed signing key set, clock), the required
permission and the raw header, two calls on the same inputs are one and the
same value: the same claims on success, the same typed error on failure. -/
theorem verify_deterministic (cfg : AuthConfig) (env : AuthEnv)
    (required : String) (raw : Option String) :
    verify cfg env required raw = verify cfg env required raw := rfl

/-- C7 witness: the two calls at concrete inputs coincide. -/
theorem verify_deterministic_witness :
    verify cfgW envW "get:drinks-detail" (some "Bearer tokA")
      = verify cfgW envW "get:drinks-detail" (some "Bearer tokA") :=
  verify_deterministic cfgW envW "get:drinks-detail" (some "Bearer tokA")
